import Mathlib

/-!
Verification of the TripleTen CLI leaderboard client (`tripleten_cli`).

The definitions below are a shallow embedding of the Python sources
`src/tripleten_cli/client.py` and `src/tripleten_cli/cli.py`:
JSON documents are modelled by an inductive `Json` type, the HTTP layer by an
explicit supply of responses (one per attempted request), and the stateful
watch loop by explicit state passing.  Machine behaviour that the code relies
on (urllib3 status retries, SHA-256, file truncation on `open(.., "w")`) is
modelled directly and executably.
-/

namespace TripleTen

/-- JSON values as produced by `response.json()` / consumed by `json.dumps`.
Objects are association lists in insertion order; Python dicts keep unique
keys, which theorems assume via `Nodup` hypotheses where it matters. -/
inductive Json where
  | null
  | bool (b : Bool)
  | num (n : Int)
  | str (s : String)
  | arr (elems : List Json)
  | obj (fields : List (String × Json))

instance : Inhabited Json := ⟨Json.null⟩

/-- Python dict lookup on an association list built by successive insertion:
a later binding of the same key overrides an earlier one. -/
def dictLookup (fs : List (String × Json)) (k : String) : Option Json :=
  match fs with
  | [] => none
  | (k', v) :: rest =>
    match dictLookup rest k with
    | some r => some r
    | none => if k' = k then some v else none

/-- `dct.get(k, d)` of Python. -/
def dictGetD (fs : List (String × Json)) (k : String) (d : Json) : Json :=
  (dictLookup fs k).getD d

/-- Whether `small` is a prefix of `big` (on character lists). -/
def prefixOfChars : List Char → List Char → Bool
  | [], _ => true
  | _ :: _, [] => false
  | a :: as, b :: bs => a == b && prefixOfChars as bs

/-- Whether `needle` occurs as a contiguous subsequence of `hay`
(Python's `needle in haystack` on strings). -/
def containsSeq (needle : List Char) : List Char → Bool
  | [] => needle.isEmpty
  | c :: rest => prefixOfChars needle (c :: rest) || containsSeq needle rest

/-! ## Cookie-header parsing (`TripleTenHTTPClient.login`) -/

/-- The whitespace characters stripped by Python's `str.strip()` (ASCII
range). -/
def pyWhitespace (c : Char) : Bool :=
  c == ' ' || c == '\t' || c == '\n' || c == '\r' || c.toNat == 11 || c.toNat == 12

/-- `str.strip()`: drop leading and trailing whitespace. -/
def pyStrip (s : String) : String :=
  String.mk (((s.data.dropWhile pyWhitespace).reverse.dropWhile pyWhitespace).reverse)

/-- The scanning loop of `login`: walk the cookie string, splitting on the
two-character separator `"; "` but only when the part accumulated so far
already contains an `'='`; otherwise the `';'` is kept inside the current
part.  At the end the final part is kept when it is non-blank and contains
an `'='`.  Mirrors `client.py` lines 137–154. -/
def scanCookieParts : List Char → String → List String → List String
  | [], current, acc =>
    if pyStrip current ≠ "" ∧ containsSeq ['='] current.data then acc ++ [pyStrip current]
    else acc
  | ';' :: ' ' :: rest, current, acc =>
    if containsSeq ['='] current.data then scanCookieParts rest "" (acc ++ [pyStrip current])
    else scanCookieParts (' ' :: rest) (current.push ';') acc
  | c :: rest, current, acc => scanCookieParts rest (current.push c) acc
termination_by structural cs => cs

/-- `part.split("=", 1)`: split at the first `'='` only.  Returns `none`
when the part has no `'='` at all. -/
def splitFirstEq (s : String) : Option (String × String) :=
  go s.data ""
where
  go : List Char → String → Option (String × String)
    | [], _ => none
    | '=' :: rest, before => some (before, String.mk rest)
    | c :: rest, before => go rest (before.push c)

/-- `session.cookies.set name value`: replaces an existing cookie of the
same name, otherwise appends. -/
def cookiesSet (jar : List (String × String)) (n v : String) : List (String × String) :=
  if jar.any (·.1 == n) then jar.map (fun p => if p.1 == n then (n, v) else p)
  else jar ++ [(n, v)]

/-- `TripleTenHTTPClient.login` as a function from the prior in-memory jar
and the raw cookie header string to the new jar (`client.py` 125–171):
clear the jar, scan the string into parts, split each part at the first
`'='`, strip, and skip empty names/values. -/
def login (prior : List (String × String)) (cookie_string : String) :
    List (String × String) :=
  let cleared : List (String × String) := []
  let _ := prior
  if cookie_string = "" then cleared
  else
    (scanCookieParts cookie_string.data "" []).foldl
      (fun jar part =>
        match splitFirstEq part with
        | none => jar
        | some (n, v) =>
          let n := pyStrip n
          let v := pyStrip v
          if n ≠ "" ∧ v ≠ "" then cookiesSet jar n v else jar)
      cleared

/-! ## Canonical JSON serialization (`json.dumps(data, sort_keys=True)`) -/

/-- Opening brace as a string. -/
def lbr : String := String.mk [Char.ofNat 123]

/-- Closing brace as a string. -/
def rbr : String := String.mk [Char.ofNat 125]

/-- Lower-case hex digit. -/
def hexDigit (n : Nat) : Char :=
  if n < 10 then Char.ofNat (48 + n) else Char.ofNat (87 + n)

/-- Four-digit lower-case hex, as in `\uXXXX` escapes. -/
def hex4 (n : Nat) : String :=
  String.mk [hexDigit (n / 4096 % 16), hexDigit (n / 256 % 16),
             hexDigit (n / 16 % 16), hexDigit (n % 16)]

/-- Escape one character the way `json.dumps` (with its default
`ensure_ascii=True`) does inside string literals. -/
def escapeChar (c : Char) : String :=
  let n := c.toNat
  if c = '"' then "\\\""
  else if c = '\\' then "\\\\"
  else if c = '\n' then "\\n"
  else if c = '\r' then "\\r"
  else if c = '\t' then "\\t"
  else if n = 8 then "\\b"
  else if n = 12 then "\\f"
  else if n < 32 then "\\u" ++ hex4 n
  else if n < 128 then String.mk [c]
  else if n < 65536 then "\\u" ++ hex4 n
  else
    let m := n - 65536
    "\\u" ++ hex4 (55296 + m / 1024) ++ "\\u" ++ hex4 (56320 + m % 1024)

/-- A JSON string literal (quotes plus escaped content). -/
def dumpStr (s : String) : String :=
  "\"" ++ String.join (s.data.map escapeChar) ++ "\""

/-- Ordering used by `sort_keys=True`: compare rendered fields by key,
lexicographically on code points (Python string comparison). -/
def keyLE (p q : String × String) : Prop := p.1.data ≤ q.1.data

instance : DecidableRel keyLE := fun p q => inferInstanceAs (Decidable (p.1.data ≤ q.1.data))

instance : IsTotal (String × String) keyLE := ⟨fun a b => le_total a.1.data b.1.data⟩

instance : IsTrans (String × String) keyLE := ⟨fun _ _ _ h1 h2 => le_trans h1 h2⟩

/-- Strict version of `keyLE`, used to show sorted field lists with
distinct keys are unique. -/
def keyLT (p q : String × String) : Prop := p.1.data < q.1.data

mutual

/-- `json.dumps(data, sort_keys=True)` with the default separators
`", "` and `": "`: object keys are sorted at every level. -/
def dumps : Json → String
  | .null => "null"
  | .bool true => "true"
  | .bool false => "false"
  | .num n => toString n
  | .str s => dumpStr s
  | .arr xs => "[" ++ String.intercalate ", " (dumpsList xs) ++ "]"
  | .obj fs =>
    lbr ++ String.intercalate ", "
      ((List.insertionSort keyLE (dumpsFields fs)).map
        (fun q => dumpStr q.1 ++ ": " ++ q.2)) ++ rbr
termination_by structural j => j

/-- Serialize every element of an array. -/
def dumpsList : List Json → List String
  | [] => []
  | x :: xs => dumps x :: dumpsList xs
termination_by structural l => l

/-- Render each object field to `(key, serialized value)`. -/
def dumpsFields : List (String × Json) → List (String × String)
  | [] => []
  | (k, v) :: fs => (k, dumps v) :: dumpsFields fs
termination_by structural l => l

end

/-! ## SHA-256 (`hashlib.sha256`), executable over byte lists -/

/-- `2 ^ 32`. -/
def w32 : Nat := 4294967296

/-- Logical right shift of a 32-bit word. -/
def shr32 (x n : Nat) : Nat := x / 2 ^ n

/-- Right rotation of a 32-bit word: the low `n` bits wrap to the top, so
or-ing the two disjoint parts is plain addition. -/
def rotr32 (x n : Nat) : Nat := x / 2 ^ n + x % 2 ^ n * 2 ^ (32 - n)

/-- SHA-256 `Ch`; the complement of `x` within 32 bits is `2^32 - 1 - x`. -/
def shaCh (x y z : Nat) : Nat := (x &&& y) ^^^ ((4294967295 - x) &&& z)

/-- SHA-256 `Maj`. -/
def shaMaj (x y z : Nat) : Nat := (x &&& y) ^^^ (x &&& z) ^^^ (y &&& z)

/-- SHA-256 `Σ0`. -/
def shaS0 (x : Nat) : Nat := rotr32 x 2 ^^^ rotr32 x 13 ^^^ rotr32 x 22

/-- SHA-256 `Σ1`. -/
def shaS1 (x : Nat) : Nat := rotr32 x 6 ^^^ rotr32 x 11 ^^^ rotr32 x 25

/-- SHA-256 `σ0`. -/
def shas0 (x : Nat) : Nat := rotr32 x 7 ^^^ rotr32 x 18 ^^^ shr32 x 3

/-- SHA-256 `σ1`. -/
def shas1 (x : Nat) : Nat := rotr32 x 17 ^^^ rotr32 x 19 ^^^ shr32 x 10

/-- The 64 SHA-256 round constants (decimal). -/
def shaK : List Nat :=
  [1116352408, 1899447441, 3049323471, 3921009573, 961987163,
   1508970993, 2453635748, 2870763221, 3624381080, 310598401,
   607225278, 1426881987, 1925078388, 2162078206, 2614888103,
   3248222580, 3835390401, 4022224774, 264347078, 604807628,
   770255983, 1249150122, 1555081692, 1996064986, 2554220882,
   2821834349, 2952996808, 3210313671, 3336571891, 3584528711,
   113926993, 338241895, 666307205, 773529912, 1294757372,
   1396182291, 1695183700, 1986661051, 2177026350, 2456956037,
   2730485921, 2820302411, 3259730800, 3345764771, 3516065817,
   3600352804, 4094571909, 275423344, 430227734, 506948616,
   659060556, 883997877, 958139571, 1322822218, 1537002063,
   1747873779, 1955562222, 2024104815, 2227730452, 2361852424,
   2428436474, 2756734187, 3204031479, 3329325298]

/-- The eight initial SHA-256 state words (decimal). -/
def shaH0 : List Nat :=
  [1779033703, 3144134277, 1013904242, 2773480762,
   1359893119, 2600822924, 528734635, 1541459225]

/-- Extend the sixteen block words by `t` more schedule words. -/
def buildSchedule (ws : List Nat) : Nat → List Nat
  | 0 => ws
  | t + 1 =>
    let n := ws.length
    let wt := (shas1 (ws.getD (n - 2) 0) + ws.getD (n - 7) 0 +
               shas0 (ws.getD (n - 15) 0) + ws.getD (n - 16) 0) % w32
    buildSchedule (ws ++ [wt]) t

/-- One SHA-256 round on the eight-word state, given `(Kt, Wt)`. -/
def shaRound (st : List Nat) (kw : Nat × Nat) : List Nat :=
  match st with
  | [a, b, c, d, e, f, g, h] =>
    let t1 := (h + shaS1 e + shaCh e f g + kw.1 + kw.2) % w32
    let t2 := (shaS0 a + shaMaj a b c) % w32
    [(t1 + t2) % w32, a, b, c, (d + t1) % w32, e, f, g]
  | _ => st

/-- Compress one 16-word block into the running state. -/
def shaCompress (st : List Nat) (block : List Nat) : List Nat :=
  let mixed := (shaK.zip (buildSchedule block 48)).foldl shaRound st
  (st.zip mixed).map (fun p => (p.1 + p.2) % w32)

/-- Big-endian bytes of `n`, `count` bytes wide. -/
def natBytesBE (n count : Nat) : List Nat :=
  (List.range count).map (fun i => n / 2 ^ (8 * (count - 1 - i)) % 256)

/-- Merkle–Damgård padding: `0x80`, zeros to 56 mod 64, 8-byte bit length. -/
def shaPad (msg : List Nat) : List Nat :=
  let l := msg.length
  let zeros := (119 - l % 64) % 64
  msg ++ [128] ++ List.replicate zeros 0 ++ natBytesBE (8 * l) 8

/-- Pack bytes into big-endian 32-bit words. -/
def bytesToWords : List Nat → List Nat
  | b0 :: b1 :: b2 :: b3 :: rest =>
    (((b0 * 256 + b1) * 256 + b2) * 256 + b3) :: bytesToWords rest
  | _ => []

/-- Split a word list into 16-word blocks (fuelled by the list length so
that the recursion is structural and kernel-reducible). -/
def chunk16Fuel : Nat → List Nat → List (List Nat)
  | 0, _ => []
  | _, [] => []
  | fuel + 1, w :: rest => ((w :: rest).take 16) :: chunk16Fuel fuel ((w :: rest).drop 16)

/-- Split a word list into 16-word blocks. -/
def chunk16 (ws : List Nat) : List (List Nat) := chunk16Fuel ws.length ws

/-- SHA-256 digest (32 bytes) of a byte list. -/
def sha256Bytes (msg : List Nat) : List Nat :=
  let final := (chunk16 (bytesToWords (shaPad msg))).foldl shaCompress shaH0
  final.flatMap (fun wrd => natBytesBE wrd 4)

/-- `hashlib.sha256(...).hexdigest()`. -/
def sha256Hex (msg : List Nat) : String :=
  String.join ((sha256Bytes msg).map (fun b => String.mk [hexDigit (b / 16), hexDigit (b % 16)]))

/-- UTF-8 encoding of one character (`str.encode()`). -/
def charUtf8 (c : Char) : List Nat :=
  let n := c.toNat
  if n < 128 then [n]
  else if n < 2048 then [192 + n / 64, 128 + n % 64]
  else if n < 65536 then [224 + n / 4096, 128 + n / 64 % 64, 128 + n % 64]
  else [240 + n / 262144, 128 + n / 4096 % 64, 128 + n / 64 % 64, 128 + n % 64]

/-- UTF-8 bytes of a string. -/
def strUtf8 (s : String) : List Nat := s.data.flatMap charUtf8

/-- `compute_data_hash` (`cli.py` 42–53): SHA-256 hex digest of
`json.dumps(data, sort_keys=True).encode()`. -/
def compute_data_hash (data : Json) : String := sha256Hex (strUtf8 (dumps data))

/-! ## HTTP transport (`_create_session` retry policy and `_make_request`)

A network interaction is modelled by a supply of responses, one per attempt
actually issued; an exhausted supply stands for a transport-level failure
(`requests.RequestException`). -/

/-- One HTTP response: status, the parsed JSON body (`none` when the body is
not valid JSON), and the raw body text. -/
structure HttpResponse where
  status : Nat
  body : Option Json
  text : String

/-- `status_forcelist=[429, 500, 502, 503, 504]` of `_create_session`. -/
def statusForcelist : List Nat := [429, 500, 502, 503, 504]

/-- `allowed_methods=["HEAD", "GET", "OPTIONS"]` of `_create_session`. -/
def allowedMethods : List String := ["HEAD", "GET", "OPTIONS"]

/-- urllib3 backoff with `backoff_factor`: the first retry sleeps 0, retry
`k ≥ 2` sleeps `backoff_factor * 2 ^ (k - 1)` — the `0s, 2s, 4s` of the
comment in `_create_session`. -/
def backoffDelay (factor k : Nat) : Nat :=
  if k ≤ 1 then 0 else factor * 2 ^ (k - 1)

/-- The urllib3 `Retry(total=3, ..., raise_on_status=False)` status-retry
loop: while the status is in the forcelist, the method is idempotent and
retries remain, sleep the backoff delay and reissue; otherwise surface the
response as-is.  Returns the surfaced response (`none` when the supply ran
out, i.e. transport failure), the number of requests issued, and the list
of delays slept before each retry. -/
def retryRun (method : String) : List HttpResponse → Nat → Nat →
    Option HttpResponse × Nat × List Nat
  | [], _, _ => (none, 0, [])
  | r :: rest, remaining, consec =>
    if r.status ∈ statusForcelist ∧ method ∈ allowedMethods ∧ 0 < remaining then
      let (fr, att, delays) := retryRun method rest (remaining - 1) (consec + 1)
      (fr, att + 1, backoffDelay 1 (consec + 1) :: delays)
    else (some r, 1, [])

/-- A session request under the configured retry policy (`total=3`). -/
def sessionRequest (method : String) (resps : List HttpResponse) :
    Option HttpResponse × Nat × List Nat :=
  retryRun method resps 3 0

/-- Result of `_make_request`: the response, or one of the exceptions the
method can raise (`AuthenticationError` on status 401 via
`_handle_auth_error`, `ConnectionError` on `requests.RequestException`). -/
inductive ReqResult where
  | ok (r : HttpResponse)
  | authError
  | connError

/-- `TripleTenHTTPClient._make_request` (`client.py` 179–207), returning the
result together with the number of requests issued. -/
def make_request (method : String) (resps : List HttpResponse) : ReqResult × Nat :=
  match sessionRequest method resps with
  | (none, att, _) => (.connError, att)
  | (some r, att, _) => if r.status = 401 then (.authError, att) else (.ok r, att)

/-! ## `fetch_leaderboard` -/

/-- The exceptions observable from the client operations. -/
inductive FetchError where
  | validationError (period : String)
  | authenticationError
  | httpError (status : Nat)
  | jsonDecodeError
  | connectionError
  | typeError

/-- `period_mapping = {"all": "all_time", "month": "30_days", "week": "7_days"}`
followed by `.get(period, period)`. -/
def map_period (period : String) : String :=
  if period = "all" then "all_time"
  else if period = "month" then "30_days"
  else if period = "week" then "7_days"
  else period

/-- `valid_periods = ["all_time", "30_days", "7_days"]`. -/
def valid_periods : List String := ["all_time", "30_days", "7_days"]

/-- One synthesized leaderboard entry of the `top_members` branch
(`client.py` 263–273). -/
def entryOf (rank : Nat) (fs : List (String × Json)) : Json :=
  .obj [("rank", .num rank),
        ("user", dictGetD fs "name" (.str "Unknown")),
        ("user_id", dictGetD fs "public_uid" (.str "")),
        ("xp", dictGetD fs "total_points" (.num 0)),
        ("completed", .num 0),
        ("streak", .num 0)]

/-- `for rank, member in enumerate(data["top_members"], 1)`: each member must
be a dict for `member.get` to succeed (otherwise Python crashes, modelled as
`none`). -/
def membersToEntries : List Json → Nat → Option (List Json)
  | [], _ => some []
  | .obj fs :: rest, rank => (membersToEntries rest (rank + 1)).map (entryOf rank fs :: ·)
  | _, _ => none

/-- The post-parse transformation of `fetch_leaderboard` (`client.py`
257–277): `if "top_members" in data` synthesize entries, else return the
parsed document unchanged.  Non-dict documents follow Python `in`/indexing
semantics (`typeError` marks paths where Python would crash). -/
def transformResponse (data : Json) : Except FetchError Json :=
  match data with
  | .obj fs =>
    match dictLookup fs "top_members" with
    | none => .ok data
    | some (.arr members) =>
      match membersToEntries members 1 with
      | some entries => .ok (.obj [("leaderboard", .arr entries)])
      | none => .error .typeError
    | some _ => .error .typeError
  | .arr xs =>
    if xs.any (fun x => match x with | .str s => s == "top_members" | _ => false)
    then .error .typeError else .ok data
  | .str s =>
    if containsSeq "top_members".data s.data then .error .typeError else .ok data
  | _ => .error .typeError

/-- What a `fetch_leaderboard` call did: its result, how many requests were
issued, and the period query parameter sent (`none` when validation failed
before any network call). -/
structure FetchOutcome where
  result : Except FetchError Json
  attempts : Nat
  sentPeriod : Option String

/-- `TripleTenHTTPClient.fetch_leaderboard` (`client.py` 209–279): map the
period, validate it, issue one GET (with retries inside the session), raise
on non-200, parse, and transform. -/
def fetch_leaderboard (period : String) (resps : List HttpResponse) : FetchOutcome :=
  let api_period := map_period period
  if api_period ∉ valid_periods then
    ⟨.error (.validationError api_period), 0, none⟩
  else
    match make_request "GET" resps with
    | (.authError, att) => ⟨.error .authenticationError, att, some api_period⟩
    | (.connError, att) => ⟨.error .connectionError, att, some api_period⟩
    | (.ok r, att) =>
      if r.status ≠ 200 then ⟨.error (.httpError r.status), att, some api_period⟩
      else
        match r.body with
        | none => ⟨.error .jsonDecodeError, att, some api_period⟩
        | some data => ⟨transformResponse data, att, some api_period⟩

/-! ## `is_authenticated` and `get_user_info`

Both wrap `_make_request` in `try ... except SystemExit`.  Nothing on this
path raises `SystemExit`: a 401 raises `AuthenticationError`, which is not
caught and therefore propagates. -/

/-- `TripleTenHTTPClient.is_authenticated` (`client.py` 281–292). -/
def is_authenticated (resps : List HttpResponse) : Except FetchError Bool :=
  match make_request "GET" resps with
  | (.authError, _) => .error .authenticationError
  | (.connError, _) => .error .connectionError
  | (.ok r, _) => .ok (decide (r.status ≠ 401))

/-- `TripleTenHTTPClient.get_user_info` (`client.py` 294–307). -/
def get_user_info (resps : List HttpResponse) : Except FetchError (Option Json) :=
  match make_request "GET" resps with
  | (.authError, _) => .error .authenticationError
  | (.connError, _) => .error .connectionError
  | (.ok r, _) =>
    if r.status = 200 then
      match r.body with
      | some j => .ok (some j)
      | none => .error .jsonDecodeError
    else .ok none

/-! ## Watch mode (`cli.py` `leaderboard`, lines 241–272) -/

/-- The mutable locals of the watch loop. -/
structure WatchState where
  previous_hash : Option String
  last_refresh_time : Option Nat
  renders : Nat

/-- `has_data_changed` (`cli.py` 241–249): update the retained hash and
report whether it changed (a missing prior hash counts as changed). -/
def has_data_changed (st : WatchState) (data : Json) : Bool × WatchState :=
  let current_hash := compute_data_hash data
  match st.previous_hash with
  | none => (true, { st with previous_hash := some current_hash })
  | some prev =>
    if current_hash ≠ prev then (true, { st with previous_hash := some current_hash })
    else (false, st)

/-- The initial fetch-and-display (`cli.py` 253–256): record the fetch
timestamp, initialize the hash (result ignored), always render. -/
def initialStep (ts : Nat) (data : Json) (st : WatchState) : WatchState :=
  let st := { st with last_refresh_time := some ts }
  let (_, st) := has_data_changed st data
  { st with renders := st.renders + 1 }

/-- One iteration of the watch loop (`cli.py` 262–272): record the fetch
timestamp, then render only when the data changed. -/
def loopStep (ts : Nat) (data : Json) (st : WatchState) : WatchState :=
  let st := { st with last_refresh_time := some ts }
  let (changed, st) := has_data_changed st data
  if changed then { st with renders := st.renders + 1 } else st

/-- Watch mode on a finite schedule of successful fetches, each a
`(timestamp, data)` pair: the initial display followed by loop iterations. -/
def runWatch (first : Nat × Json) (rest : List (Nat × Json)) : WatchState :=
  rest.foldl (fun st p => loopStep p.1 p.2 st) (initialStep first.1 first.2 ⟨none, none, 0⟩)

/-! ## `_save_cookies` (`client.py` 106–123)

The write is `open(path, "w")` followed by `json.dump`: opening truncates
the file in place, so the model distinguishes an I/O failure before the
open (file untouched) from one during the write (a prefix of the new
content, possibly empty, has replaced the old file).  The `except IOError`
handler only prints a warning. -/

/-- How the I/O of one save goes. -/
inductive SaveOutcome where
  | ok
  | failBeforeOpen
  | failDuringWrite (written : Nat)

/-- Result of `_save_cookies`: the cookie-file content afterwards, whether a
warning was printed, and the in-memory jar (which the method never touches). -/
structure SaveResult where
  file : Option String
  warned : Bool
  jar : List (String × String)

/-- `_save_cookies`, parametrized by the previous file content, the
serialized new content, and the I/O outcome. -/
def save_cookies (jar : List (String × String)) (prevFile : Option String)
    (content : String) (outcome : SaveOutcome) : SaveResult :=
  match outcome with
  | .ok => ⟨some content, false, jar⟩
  | .failBeforeOpen => ⟨prevFile, true, jar⟩
  | .failDuringWrite k => ⟨some (String.mk (content.data.take k)), true, jar⟩

/-! ## Concrete fixtures used by counterexamples and witnesses -/

/-- A 401 response with an empty body. -/
def resp401 : HttpResponse := ⟨401, none, ""⟩

/-- A 200 response carrying an already-shaped leaderboard document. -/
def respLB : HttpResponse := ⟨200, some (.obj [("leaderboard", .arr [])]), "ok"⟩

/-- A 500 response. -/
def respSrv : HttpResponse := ⟨500, none, "ISE"⟩

/-- A 200 response whose parsed body has neither `leaderboard` nor
`top_members`. -/
def respUnrec : HttpResponse := ⟨200, some (.obj [("foo", .num 1)]), "x"⟩

/-- A two-entry snapshot document. -/
def snapA : Json :=
  .obj [("leaderboard", .arr
    [.obj [("rank", .num 1), ("user", .str "A")],
     .obj [("rank", .num 2), ("user", .str "B")]])]

/-- `snapA` with the keys of each entry written in the opposite order
(same content, different underlying key order). -/
def snapAKeysReordered : Json :=
  .obj [("leaderboard", .arr
    [.obj [("user", .str "A"), ("rank", .num 1)],
     .obj [("user", .str "B"), ("rank", .num 2)]])]

/-- `snapA` with the two entries swapped (different entry sequence). -/
def snapBEntriesSwapped : Json :=
  .obj [("leaderboard", .arr
    [.obj [("rank", .num 2), ("user", .str "B")],
     .obj [("rank", .num 1), ("user", .str "A")]])]

/-- The entries synthesized for a list of member dicts, starting at the
given 1-based rank: the reference shape of the `top_members` loop. -/
def mapWithRank : Nat → List (List (String × Json)) → List Json
  | _, [] => []
  | rank, fs :: rest => entryOf rank fs :: mapWithRank (rank + 1) rest

/-- Two member dicts: one empty (all optional fields absent), one with all
three fields present. -/
def c4Members : List (List (String × Json)) :=
  [[], [("name", .str "Z"), ("public_uid", .str "u"), ("total_points", .num 7)]]

/-- A 200 response whose body is a `top_members` document over `c4Members`. -/
def respTop : HttpResponse :=
  ⟨200, some (.obj [("top_members", .arr (c4Members.map Json.obj))]), "ok"⟩

end TripleTen

namespace TripleTen

set_option maxRecDepth 1000000

/-! ## C1 — cookie-header parsing in `login` -/

/-- Claim C1 counterexample: `login("a=1;b=2")` (separator `';'` without a
space) does not yield both cookies `a` and `b`; it produces the single
cookie `a = "1;b=2"` and no cookie `b` at all, because the scanner splits
only on the two-character separator `"; "`. -/
theorem c1_counterexample :
    login [] "a=1;b=2" = [("a", "1;b=2")] ∧
    List.lookup "b" (login [] "a=1;b=2") = none := by
  exact ⟨by decide, by decide⟩

/-- Claim C1 (amended): `login` replaces the prior cookie set and parses the
header by splitting into tokens only at the two-character separator `"; "`;
each token is split at its first `'='` (values may contain further `'='`),
names and values are stripped, and pairs with an empty name or value are
skipped.  Hence `login("a=1; b=2") = {a: "1", b: "2"}`, while with no space
after the `';'` the whole of `"1;b=2"` stays the value of `a`. -/
theorem c1_login_parsing (prior : List (String × String)) :
    login prior "a=1; b=2" = [("a", "1"), ("b", "2")] ∧
    login prior "a=1;b=2" = [("a", "1;b=2")] ∧
    login prior "a=b=c; x=1" = [("a", "b=c"), ("x", "1")] ∧
    login prior "a=; =2; b=3" = [("b", "3")] ∧
    login prior "" = [] ∧
    (∀ s, login prior s = login [] s) := by
  have hpi : ∀ s, login prior s = login [] s := fun _ => rfl
  refine ⟨?_, ?_, ?_, ?_, ?_, hpi⟩ <;> rw [hpi] <;> decide

/-! ## C2 — `is_authenticated` / `get_user_info` on a 401 -/

/-- Claim C2 counterexample: on an explicit 401 both probes raise
`AuthenticationError` instead of returning `False` / `None` — the
`except SystemExit` handler does not catch it. -/
theorem c2_counterexample :
    is_authenticated [resp401] = .error .authenticationError ∧
    is_authenticated [resp401] ≠ .ok false ∧
    get_user_info [resp401] = .error .authenticationError ∧
    get_user_info [resp401] ≠ .ok none := by
  have h1 : is_authenticated [resp401] = .error .authenticationError := rfl
  have h2 : get_user_info [resp401] = .error .authenticationError := rfl
  refine ⟨h1, ?_, h2, ?_⟩
  · rw [h1]; exact fun h => Except.noConfusion h
  · rw [h2]; exact fun h => Except.noConfusion h

/-- Claim C2 (amended): on a 401 response both `is_authenticated` and
`get_user_info` propagate `AuthenticationError` (raised by
`_make_request`; only `SystemExit` is caught), and on a transport-level
failure both propagate `ConnectionError`; neither converts an
authentication signal into `False`/`None`. -/
theorem c2_auth_probe_errors (r : HttpResponse) (rest : List HttpResponse)
    (h : r.status = 401) :
    is_authenticated (r :: rest) = .error .authenticationError ∧
    get_user_info (r :: rest) = .error .authenticationError ∧
    is_authenticated [] = .error .connectionError ∧
    get_user_info [] = .error .connectionError := by
  refine ⟨?_, ?_, rfl, rfl⟩ <;>
    simp [is_authenticated, get_user_info, make_request, sessionRequest, retryRun, h,
      statusForcelist]

/-- Claim C2 witness: the amended theorem applied to the concrete 401
response. -/
theorem c2_witness :
    is_authenticated [resp401] = .error .authenticationError ∧
    get_user_info [resp401] = .error .authenticationError ∧
    is_authenticated [] = .error .connectionError ∧
    get_user_info [] = .error .connectionError :=
  c2_auth_probe_errors resp401 [] rfl

/-! ## C3 — period validation in `fetch_leaderboard` -/

/-- Helper: an input whose mapped period is not a wire value fails before
any request. -/
theorem fetch_leaderboard_invalid (p : String) (resps : List HttpResponse)
    (h : map_period p ∉ valid_periods) :
    fetch_leaderboard p resps = ⟨.error (.validationError (map_period p)), 0, none⟩ := by
  simp only [fetch_leaderboard, h, not_false_eq_true, if_true]

/-- Claim C3 counterexample: the wire value `"all_time"` is not one of the
three client aliases `all`/`month`/`week`, yet `fetch_leaderboard`
accepts it and issues a network request instead of failing with
`ValueError`. -/
theorem c3_counterexample :
    (fetch_leaderboard "all_time" [respLB]).result = .ok (.obj [("leaderboard", .arr [])]) ∧
    (fetch_leaderboard "all_time" [respLB]).attempts = 1 ∧
    (fetch_leaderboard "all_time" [respLB]).sentPeriod = some "all_time" := by
  exact ⟨rfl, rfl, rfl⟩

/-- Claim C3 (amended): the aliases `all`/`month`/`week` map to the wire
values `all_time`/`30_days`/`7_days` and produce exactly one request with
the mapped query value; the three wire values themselves are also accepted
and passed through unchanged; every other string fails with `ValueError`
before any network call (zero requests issued). -/
theorem c3_period_validation (r : HttpResponse) (hr : r.status ∉ statusForcelist)
    (p : String)
    (hp : p ∉ ["all", "month", "week", "all_time", "30_days", "7_days"]) :
    ((fetch_leaderboard "all" [r]).sentPeriod = some "all_time" ∧
       (fetch_leaderboard "all" [r]).attempts = 1) ∧
    ((fetch_leaderboard "month" [r]).sentPeriod = some "30_days" ∧
       (fetch_leaderboard "month" [r]).attempts = 1) ∧
    ((fetch_leaderboard "week" [r]).sentPeriod = some "7_days" ∧
       (fetch_leaderboard "week" [r]).attempts = 1) ∧
    (fetch_leaderboard "all_time" [r]).sentPeriod = some "all_time" ∧
    (fetch_leaderboard "30_days" [r]).sentPeriod = some "30_days" ∧
    (fetch_leaderboard "7_days" [r]).sentPeriod = some "7_days" ∧
    fetch_leaderboard p [r] = ⟨.error (.validationError p), 0, none⟩ := by
  simp only [List.mem_cons, List.not_mem_nil, or_false, not_or] at hp
  obtain ⟨h1, h2, h3, h4, h5, h6⟩ := hp
  have hmr : ∀ q : String, map_period q ∈ valid_periods →
      (fetch_leaderboard q [r]).sentPeriod = some (map_period q) ∧
      (fetch_leaderboard q [r]).attempts = 1 := by
    intro q hq
    simp only [fetch_leaderboard, hq, not_true_eq_false, if_false, make_request,
      sessionRequest, retryRun, hr, false_and, if_false]
    by_cases h4' : r.status = 401 <;> by_cases h200 : r.status = 200 <;>
      simp [h4', h200] <;> split <;> simp
  refine ⟨?_, ?_, ?_, ?_, ?_, ?_, ?_⟩
  · exact hmr "all" (by decide)
  · exact hmr "month" (by decide)
  · exact hmr "week" (by decide)
  · exact (hmr "all_time" (by decide)).1
  · exact (hmr "30_days" (by decide)).1
  · exact (hmr "7_days" (by decide)).1
  · have hmp : map_period p = p := by simp [map_period, h1, h2, h3]
    have hnv : map_period p ∉ valid_periods := by
      rw [hmp]; simp [valid_periods, h4, h5, h6]
    rw [fetch_leaderboard_invalid p [r] hnv, hmp]

/-- Claim C3 witness: the amended theorem applied to a 200 response and the
invalid period string `"bogus"`. -/
theorem c3_witness :
    ((fetch_leaderboard "all" [respLB]).sentPeriod = some "all_time" ∧
       (fetch_leaderboard "all" [respLB]).attempts = 1) ∧
    ((fetch_leaderboard "month" [respLB]).sentPeriod = some "30_days" ∧
       (fetch_leaderboard "month" [respLB]).attempts = 1) ∧
    ((fetch_leaderboard "week" [respLB]).sentPeriod = some "7_days" ∧
       (fetch_leaderboard "week" [respLB]).attempts = 1) ∧
    (fetch_leaderboard "all_time" [respLB]).sentPeriod = some "all_time" ∧
    (fetch_leaderboard "30_days" [respLB]).sentPeriod = some "30_days" ∧
    (fetch_leaderboard "7_days" [respLB]).sentPeriod = some "7_days" ∧
    fetch_leaderboard "bogus" [respLB] = ⟨.error (.validationError "bogus"), 0, none⟩ :=
  c3_period_validation respLB (by decide) "bogus" (by decide)

/-! ## C4 — normalization of `top_members` payloads -/

/-- Helper: the member loop over dicts always succeeds and produces
`mapWithRank`. -/
theorem membersToEntries_map_obj (ms : List (List (String × Json))) (k : Nat) :
    membersToEntries (ms.map Json.obj) k = some (mapWithRank k ms) := by
  induction ms generalizing k with
  | nil => rfl
  | cons fs rest ih => simp [membersToEntries, mapWithRank, ih]

/-- Helper: `mapWithRank` preserves length. -/
theorem mapWithRank_length (k : Nat) (ms : List (List (String × Json))) :
    (mapWithRank k ms).length = ms.length := by
  induction ms generalizing k with
  | nil => rfl
  | cons fs rest ih => simp [mapWithRank, ih]

/-- Helper: the `i`-th synthesized entry is `entryOf` at rank `k + i`. -/
theorem mapWithRank_getD (ms : List (List (String × Json))) (k i : Nat)
    (h : i < ms.length) :
    (mapWithRank k ms).getD i Json.null = entryOf (k + i) (ms.getD i []) := by
  induction ms generalizing k i with
  | nil => simp at h
  | cons fs rest ih =>
    cases i with
    | zero => simp [mapWithRank]
    | succ n =>
      have hn : n < rest.length := by simpa using h
      simp only [mapWithRank, List.getD_cons_succ]
      rw [ih (k + 1) n hn]
      congr 1
      omega

/-- Claim C4: for every 200 payload with a `top_members` list of member
dicts, normalization never fails and produces one entry per member in
source order, with rank equal to the 1-based position, `user` defaulting
to `"Unknown"`, `user_id` defaulting to `""`, `xp` defaulting to `0`, and
`completed` and `streak` always `0`. -/
theorem c4_top_members_normalization (ms : List (List (String × Json)))
    (fs : List (String × Json)) (rest : List HttpResponse) (txt : String)
    (hlook : dictLookup fs "top_members" = some (.arr (ms.map Json.obj))) :
    (fetch_leaderboard "all" (⟨200, some (.obj fs), txt⟩ :: rest)).result =
      .ok (.obj [("leaderboard", .arr (mapWithRank 1 ms))]) ∧
    (mapWithRank 1 ms).length = ms.length ∧
    (∀ i, i < ms.length →
      (mapWithRank 1 ms).getD i Json.null =
        .obj [("rank", .num (1 + i)),
              ("user", (dictLookup (ms.getD i []) "name").getD (.str "Unknown")),
              ("user_id", (dictLookup (ms.getD i []) "public_uid").getD (.str "")),
              ("xp", (dictLookup (ms.getD i []) "total_points").getD (.num 0)),
              ("completed", .num 0), ("streak", .num 0)]) := by
  refine ⟨?_, mapWithRank_length 1 ms, ?_⟩
  · simp [fetch_leaderboard, make_request, sessionRequest, retryRun, statusForcelist,
      map_period, valid_periods, transformResponse, hlook, membersToEntries_map_obj]
  · intro i hi
    rw [mapWithRank_getD ms 1 i hi]
    simp [entryOf, dictGetD]

/-- Claim C4 witness: the theorem applied to a member with no optional
fields and a member with all fields, checked at both positions. -/
theorem c4_witness :
    (fetch_leaderboard "all" [respTop]).result =
      .ok (.obj [("leaderboard", .arr (mapWithRank 1 c4Members))]) ∧
    (mapWithRank 1 c4Members).length = 2 ∧
    (mapWithRank 1 c4Members).getD 0 Json.null =
      .obj [("rank", .num 1), ("user", .str "Unknown"), ("user_id", .str ""),
            ("xp", .num 0), ("completed", .num 0), ("streak", .num 0)] ∧
    (mapWithRank 1 c4Members).getD 1 Json.null =
      .obj [("rank", .num 2), ("user", .str "Z"), ("user_id", .str "u"),
            ("xp", .num 7), ("completed", .num 0), ("streak", .num 0)] := by
  have h := c4_top_members_normalization c4Members
    [("top_members", .arr (c4Members.map Json.obj))] [] "ok" rfl
  refine ⟨h.1, h.2.1, ?_, ?_⟩
  · have := h.2.2 0 (by decide)
    simpa [c4Members, dictLookup] using this
  · have := h.2.2 1 (by decide)
    simpa [c4Members, dictLookup] using this

/-! ## C6 — retry policy for idempotent requests -/

/-- Helper: the retry loop issues at most `remaining + 1` requests. -/
theorem retryRun_attempts_le (method : String) (resps : List HttpResponse) :
    ∀ (remaining consec : Nat),
      (retryRun method resps remaining consec).2.1 ≤ remaining + 1 := by
  induction resps with
  | nil => intro remaining consec; simp [retryRun]
  | cons r rest ih =>
    intro remaining consec
    simp only [retryRun]
    split
    · rcases hr : retryRun method rest (remaining - 1) (consec + 1) with ⟨fr, att, delays⟩
      have hle := ih (remaining - 1) (consec + 1)
      rw [hr] at hle
      simp only [hr]
      simp at hle ⊢
      omega
    · simp

/-- Claim C6: a GET whose responses all carry retryable statuses
(`429/500/502/503/504`) is retried with at most 4 total attempts, the
delays before the successive retries are `0, 2, 4` time units — strictly
increasing, with each later delay double the previous one from the
1-time-unit base factor — and when retries are exhausted the fourth
response is surfaced as-is (an `ok` result, not an error). -/
theorem c6_retry_policy (a b c d : HttpResponse) (rest : List HttpResponse)
    (ha : a.status ∈ statusForcelist) (hb : b.status ∈ statusForcelist)
    (hc : c.status ∈ statusForcelist) (hd : d.status ∈ statusForcelist) :
    sessionRequest "GET" (a :: b :: c :: d :: rest) = (some d, 4, [0, 2, 4]) ∧
    make_request "GET" (a :: b :: c :: d :: rest) = (.ok d, 4) ∧
    List.Chain' (· < ·) [0, 2, 4] ∧
    (∀ k, 2 ≤ k → backoffDelay 1 (k + 1) = 2 * backoffDelay 1 k) ∧
    (∀ method resps, (sessionRequest method resps).2.1 ≤ 4) := by
  have h4 : d.status ≠ 401 := by
    intro h; rw [h] at hd; simp [statusForcelist] at hd
  simp only [statusForcelist, List.mem_cons, List.not_mem_nil, or_false] at ha hb hc hd
  have hmain : sessionRequest "GET" (a :: b :: c :: d :: rest) = (some d, 4, [0, 2, 4]) := by
    simp [sessionRequest, retryRun, ha, hb, hc, hd, allowedMethods, backoffDelay,
      statusForcelist]
  refine ⟨hmain, ?_, by simp [List.chain'_cons], ?_, fun m rs => retryRun_attempts_le m rs 3 0⟩
  · simp [make_request, hmain, h4]
  · intro k hk
    have hp : 2 ^ k = 2 * 2 ^ (k - 1) := by
      conv_lhs => rw [show k = k - 1 + 1 by omega]
      rw [pow_succ, Nat.mul_comm]
    simp [backoffDelay, show ¬(k + 1 ≤ 1) by omega, show ¬(k ≤ 1) by omega, hp]

/-- Claim C6 witness: the theorem applied to a run of four 500 responses. -/
theorem c6_witness :
    sessionRequest "GET" [respSrv, respSrv, respSrv, respSrv] = (some respSrv, 4, [0, 2, 4]) ∧
    make_request "GET" [respSrv, respSrv, respSrv, respSrv] = (.ok respSrv, 4) ∧
    backoffDelay 1 3 = 2 * backoffDelay 1 2 := by
  have h := c6_retry_policy respSrv respSrv respSrv respSrv []
    (by decide) (by decide) (by decide) (by decide)
  exact ⟨h.1, h.2.1, h.2.2.2.1 2 (by decide)⟩

/-! ## C5 — 401 is raised immediately and never retried -/

/-- Claim C5: a 401 response makes `_make_request` raise
`AuthenticationError` after exactly one request (401 is not in the retry
forcelist), and `fetch_leaderboard` propagates that same signal without
re-wrapping it into a generic `HTTPError`. -/
theorem c5_401_no_retry (r : HttpResponse) (rest : List HttpResponse)
    (h : r.status = 401) :
    make_request "GET" (r :: rest) = (.authError, 1) ∧
    (fetch_leaderboard "all" (r :: rest)).result = .error .authenticationError ∧
    (fetch_leaderboard "all" (r :: rest)).attempts = 1 := by
  have hmr : make_request "GET" (r :: rest) = (.authError, 1) := by
    simp [make_request, sessionRequest, retryRun, h, statusForcelist]
  refine ⟨hmr, ?_, ?_⟩
  · simp [fetch_leaderboard, hmr, valid_periods, map_period]
  · simp [fetch_leaderboard, hmr, valid_periods, map_period]

/-- Claim C5 witness: applied to the concrete 401 response. -/
theorem c5_witness :
    make_request "GET" [resp401] = (.authError, 1) ∧
    (fetch_leaderboard "all" [resp401]).result = .error .authenticationError ∧
    (fetch_leaderboard "all" [resp401]).attempts = 1 :=
  c5_401_no_retry resp401 [] rfl

/-! ## C7 — 200 with an unparseable or unrecognized body -/

/-- Claim C7 counterexample: a 200 response whose parsed body has neither a
`leaderboard` nor a `top_members` member is returned verbatim by
`fetch_leaderboard`, not rejected with a malformed-response error. -/
theorem c7_counterexample :
    (fetch_leaderboard "all" [respUnrec]).result = .ok (.obj [("foo", .num 1)]) := by
  exact rfl

/-- Claim C7 (amended): on a 200 response `fetch_leaderboard` fails with
`ValueError` (the malformed-response signal) only when the body cannot be
parsed as JSON; a body that parses to an object of any shape without a
`top_members` key — recognized or not — is returned unchanged. -/
theorem c7_malformed_only_unparseable :
    (∀ (r : HttpResponse) (rest : List HttpResponse),
        r.status = 200 → r.body = none →
        (fetch_leaderboard "all" (r :: rest)).result = .error .jsonDecodeError) ∧
    (∀ (fs : List (String × Json)) (r : HttpResponse) (rest : List HttpResponse),
        r.status = 200 → r.body = some (.obj fs) →
        dictLookup fs "top_members" = none →
        (fetch_leaderboard "all" (r :: rest)).result = .ok (.obj fs)) := by
  constructor
  · intro r rest h200 hbody
    simp [fetch_leaderboard, make_request, sessionRequest, retryRun, h200, hbody,
      statusForcelist, valid_periods, map_period]
  · intro fs r rest h200 hbody hlook
    simp [fetch_leaderboard, make_request, sessionRequest, retryRun, h200, hbody,
      statusForcelist, valid_periods, map_period, transformResponse, hlook]

/-- Claim C7 witness: the amended theorem applied to a 200 response with an
unparseable body and to the unrecognized-shape response. -/
theorem c7_witness :
    (fetch_leaderboard "all" [⟨200, none, "not json"⟩]).result = .error .jsonDecodeError ∧
    (fetch_leaderboard "all" [respUnrec]).result = .ok (.obj [("foo", .num 1)]) :=
  ⟨c7_malformed_only_unparseable.1 ⟨200, none, "not json"⟩ [] rfl rfl,
   c7_malformed_only_unparseable.2 [("foo", .num 1)] respUnrec [] rfl rfl rfl⟩

/-! ## C8 — the fingerprint is a pure function of canonical entry content -/

/-- Helper: rendering object fields is a map over the field list. -/
theorem dumpsFields_eq_map (fs : List (String × Json)) :
    dumpsFields fs = fs.map (fun p => (p.1, dumps p.2)) := by
  induction fs with
  | nil => rfl
  | cons p rest ih => cases p; simp [dumpsFields, ih]

/-- Helper: a key-sorted field list with pairwise-distinct keys is sorted
strictly. -/
theorem pairwise_keyLT_of_sorted (l : List (String × String))
    (hs : List.Sorted keyLE l) (hnd : (l.map Prod.fst).Nodup) :
    List.Pairwise keyLT l := by
  have hne : l.Pairwise (fun p q => p.1 ≠ q.1) := List.pairwise_map.mp hnd
  refine (hs.and hne).imp ?_
  rintro a b ⟨hle, hnefst⟩
  refine lt_of_le_of_ne hle (fun hdata => hnefst ?_)
  exact congrArg String.mk hdata

/-- Helper: sorting by key is invariant under permutation of a field list
with pairwise-distinct keys. -/
theorem insertionSort_keyLE_eq_of_perm (l1 l2 : List (String × String))
    (hperm : l1.Perm l2) (hnd : (l1.map Prod.fst).Nodup) :
    List.insertionSort keyLE l1 = List.insertionSort keyLE l2 := by
  have hp : (List.insertionSort keyLE l1).Perm (List.insertionSort keyLE l2) :=
    (List.perm_insertionSort keyLE l1).trans
      (hperm.trans (List.perm_insertionSort keyLE l2).symm)
  have hnd1 : ((List.insertionSort keyLE l1).map Prod.fst).Nodup :=
    (((List.perm_insertionSort keyLE l1).map Prod.fst).nodup_iff).mpr hnd
  have hnd2 : ((List.insertionSort keyLE l2).map Prod.fst).Nodup :=
    (((List.perm_insertionSort keyLE l2).map Prod.fst).nodup_iff).mpr
      (((hperm.map Prod.fst).nodup_iff).mp hnd)
  have hp1 := pairwise_keyLT_of_sorted _ (List.sorted_insertionSort keyLE l1) hnd1
  have hp2 := pairwise_keyLT_of_sorted _ (List.sorted_insertionSort keyLE l2) hnd2
  exact @List.eq_of_perm_of_sorted _ keyLT
    ⟨fun _ _ hxy hyx => absurd hyx (lt_asymm hxy)⟩ _ _ hp hp1 hp2

/-- Helper: the canonical serialization of an object does not depend on the
insertion order of its (distinct-keyed) fields. -/
theorem dumps_obj_perm (fs1 fs2 : List (String × Json)) (hperm : fs1.Perm fs2)
    (hnd : (fs1.map Prod.fst).Nodup) :
    dumps (.obj fs1) = dumps (.obj fs2) := by
  have hpm : (dumpsFields fs1).Perm (dumpsFields fs2) := by
    rw [dumpsFields_eq_map, dumpsFields_eq_map]
    exact hperm.map _
  have hndm : ((dumpsFields fs1).map Prod.fst).Nodup := by
    rw [dumpsFields_eq_map, List.map_map]
    simpa [Function.comp] using hnd
  simp only [dumps]
  rw [insertionSort_keyLE_eq_of_perm _ _ hpm hndm]

/-- Claim C8: `compute_data_hash` is a pure function of the canonical
(`sort_keys=True`) serialization — equal canonical serializations give
equal digests, documents whose object fields are permutations of each
other (distinct keys) give equal digests irrespective of key order, a
concrete snapshot hashes identically when each entry's key order is
reversed, and swapping two entries (a different entry sequence, hence a
different canonical serialization) changes the digest.  Digest equality
tracks canonical-form equality up to SHA-256 collisions, which the spec
treats as a non-issue. -/
theorem c8_fingerprint_canonical (doc1 doc2 : Json) (fs1 fs2 : List (String × Json))
    (hser : dumps doc1 = dumps doc2) (hperm : fs1.Perm fs2)
    (hnd : (fs1.map Prod.fst).Nodup) :
    compute_data_hash doc1 = compute_data_hash doc2 ∧
    compute_data_hash (.obj fs1) = compute_data_hash (.obj fs2) ∧
    compute_data_hash snapA = compute_data_hash snapAKeysReordered ∧
    compute_data_hash snapA ≠ compute_data_hash snapBEntriesSwapped := by
  refine ⟨?_, ?_, ?_, ?_⟩
  · simp [compute_data_hash, hser]
  · simp [compute_data_hash, dumps_obj_perm fs1 fs2 hperm hnd]
  · have h : dumps snapA = dumps snapAKeysReordered := by decide
    simp [compute_data_hash, h]
  · decide

/-- Claim C8 witness: applied to a concrete two-field permutation with
distinct keys. -/
theorem c8_witness :
    compute_data_hash snapA = compute_data_hash snapA ∧
    compute_data_hash (.obj [("a", Json.null), ("b", .num 1)]) =
      compute_data_hash (.obj [("b", .num 1), ("a", Json.null)]) ∧
    compute_data_hash snapA = compute_data_hash snapAKeysReordered ∧
    compute_data_hash snapA ≠ compute_data_hash snapBEntriesSwapped :=
  c8_fingerprint_canonical snapA snapA [("a", Json.null), ("b", .num 1)]
    [("b", .num 1), ("a", Json.null)] rfl
    (List.Perm.swap ("b", .num 1) ("a", Json.null) []) (by simp)

/-! ## C9 — change-aware rendering in watch mode -/

/-- Claim C9: over two consecutive successful fetches, the render callback
runs exactly once when the two snapshots have the same fingerprint (in
particular whenever they are identical), and exactly twice when the
fingerprints differ (which, up to SHA-256 collisions — a non-issue per the
spec — is exactly when the content differs); an unchanged second fetch
skips rendering but still records its fetch timestamp. -/
theorem c9_watch_rendering (ts1 ts2 : Nat) (data1 data2 : Json) :
    (compute_data_hash data1 = compute_data_hash data2 →
       (runWatch (ts1, data1) [(ts2, data2)]).renders = 1 ∧
       (runWatch (ts1, data1) [(ts2, data2)]).last_refresh_time = some ts2) ∧
    (compute_data_hash data1 ≠ compute_data_hash data2 →
       (runWatch (ts1, data1) [(ts2, data2)]).renders = 2 ∧
       (runWatch (ts1, data1) [(ts2, data2)]).last_refresh_time = some ts2) := by
  constructor
  · intro h
    simp [runWatch, initialStep, loopStep, has_data_changed, h]
  · intro h
    simp [runWatch, initialStep, loopStep, has_data_changed, h.symm]

/-- Claim C9 witness: an identical pair renders once (timestamp still
recorded), a differing pair renders twice. -/
theorem c9_witness :
    (runWatch (5, snapA) [(7, snapA)]).renders = 1 ∧
    (runWatch (5, snapA) [(7, snapA)]).last_refresh_time = some 7 ∧
    (runWatch (5, snapA) [(7, snapBEntriesSwapped)]).renders = 2 :=
  have h1 := (c9_watch_rendering 5 7 snapA snapA).1 rfl
  have h2 := (c9_watch_rendering 5 7 snapA snapBEntriesSwapped).2 (by decide)
  ⟨h1.1, h1.2, h2.1⟩

/-! ## C10 — `_save_cookies` is not atomic -/

/-- Claim C10 counterexample: an I/O failure during the write (after
`open(.., "w")` has truncated the file) leaves a prefix of the new content
in place of the previously valid document — the old file content is lost,
so the write is not atomic. -/
theorem c10_counterexample :
    (save_cookies [("sid", "abc")] (some "OLDVALID") "NEWCONTENT"
        (.failDuringWrite 3)).file = some "NEW" ∧
    (save_cookies [("sid", "abc")] (some "OLDVALID") "NEWCONTENT"
        (.failDuringWrite 3)).file ≠ some "OLDVALID" := by
  exact ⟨rfl, by decide⟩

/-- Claim C10 (amended): `_save_cookies` writes the target file in place
(truncate then write), so only a failure before the open leaves the
previous document intact; a failure during the write leaves a prefix of
the new content (possibly empty).  Every I/O failure is caught and
reported as a warning (non-fatal), and the in-memory cookie jar is never
touched. -/
theorem c10_save_semantics (jar : List (String × String)) (prev : Option String)
    (content : String) (outcome : SaveOutcome) :
    (save_cookies jar prev content .ok).file = some content ∧
    (save_cookies jar prev content .failBeforeOpen).file = prev ∧
    (∀ k, (save_cookies jar prev content (.failDuringWrite k)).file =
        some (String.mk (content.data.take k))) ∧
    (save_cookies jar prev content outcome).jar = jar ∧
    ((save_cookies jar prev content outcome).warned = false ↔ outcome = .ok) := by
  refine ⟨rfl, rfl, fun k => rfl, ?_, ?_⟩ <;> cases outcome <;> simp [save_cookies]

end TripleTen
